import Mathlib

/-!
Verification development for the `supervised_learning` repository, which holds
two coursework components:

* `src/naive_bayes/naive_bayes.py` — class `NaiveBayes`: a multinomial Naive
  Bayes text classifier with Laplace smoothing;
* `src/neural_network/neural_net.py` — class `TwoLayerNet`: a dense two-layer
  neural network (input → ReLU hidden layer → softmax output) trained by
  mini-batch SGD.

The Python code is embedded shallowly: Python dictionaries and `Counter`s
become association lists (preserving insertion order), NumPy arrays of shape
`(m, n)` become functions `Fin m → Fin n → ℚ`, and real/float arithmetic is
modelled exactly over `ℚ`.  Fallible code (an uncaught Python exception such
as `NameError`, `KeyError`, `TypeError`, `IndexError` or `ZeroDivisionError`)
is modelled by `Option`: a raised exception means the call returns `none`.
-/

namespace Spec2Proof

/-! ## Association lists (model of Python `dict` / `Counter`)

Python dictionaries preserve insertion order; an association list traversed
front to back does the same.  `alookup` is key lookup, `bump` is the
read-modify-write idiom `d[c] += n if c in d else d[c] = n`, which updates an
existing entry in place or appends a fresh entry at the end. -/

def alookup {L β : Type} [DecidableEq L] : List (L × β) → L → Option β
  | [], _ => none
  | (k, v) :: rest, c => if c = k then some v else alookup rest c

def bump {L β : Type} [DecidableEq L] [Add β] : List (L × β) → L → β → List (L × β)
  | [], c, n => [(c, n)]
  | (k, v) :: rest, c, n =>
    if k = c then (k, v + n) :: rest else (k, v) :: bump rest c n

/-- Model of Python `collections.Counter(y)`: occurrence counts of the
elements of `y`, keys in first-encounter order. -/
def counter {L : Type} [DecidableEq L] (y : List L) : List (L × ℕ) :=
  y.foldl (fun acc c => bump acc c 1) []

/-! ## `NaiveBayes` (src/naive_bayes/naive_bayes.py) -/

/-- State of a `NaiveBayes` instance.  Fields mirror the attributes set in
`__init__`:
* `class_counts : defaultdict(int)` — per-label token totals (floats after
  smoothing is added, hence `ℚ`);
* `class_feature_counts : defaultdict(Counter)` — per-label per-token counts;
* `class_freq` — `None` until `fit` stores `Counter(y)`;
* `alpha` — the Laplace smoothing constant;
* `p` — `None` until `fit` stores the vocabulary size. -/
structure NaiveBayes (T L : Type) where
  class_counts : List (L × ℚ)
  class_feature_counts : List (L × List (T × ℕ))
  class_freq : Option (List (L × ℕ))
  alpha : ℚ
  p : Option ℕ

/-- `NaiveBayes.__init__(alpha)`: empty count tables, `class_freq = None`,
`p = None`. -/
def NaiveBayes.init {T L : Type} (alpha : ℚ) : NaiveBayes T L :=
  ⟨[], [], none, alpha, none⟩

/-- `len(set(itertools.chain(*X)))`: the number of distinct tokens across all
documents of `X`. -/
def vocabSize {T : Type} [DecidableEq T] (X : List (List T)) : ℕ :=
  X.flatten.dedup.length

/-- First loop of `_compute_likelihoods`:
`for idx, c in enumerate(y): class_counts[c] += len(X[idx])` (creating the
entry on first sight).  Indexing `X[idx]` raises `IndexError` (`none`) when
`idx` runs past the end of `X`; labels beyond the (shorter) document list are
what raise, extra documents beyond a shorter `y` are silently ignored. -/
def countLoop {T L : Type} [DecidableEq L] :
    List L → List (List T) → List (L × ℚ) → Option (List (L × ℚ))
  | [], _, acc => some acc
  | _ :: _, [], _ => none
  | c :: cs, x :: xs, acc => countLoop cs xs (bump acc c (x.length : ℚ))

/-- Second loop of `_compute_likelihoods`:
`for k in class_counts: class_counts[k] += p * alpha`. -/
def addSmoothing {L : Type} (alpha : ℚ) (p : ℕ) (acc : List (L × ℚ)) : List (L × ℚ) :=
  acc.map (fun kv => (kv.1, kv.2 + (p : ℚ) * alpha))

/-- `NaiveBayes.fit(X, y)`: stores `class_freq = Counter(y)` and
`p = len(set(chain(*X)))`, then runs `_compute_likelihoods`, which updates
`class_counts` (starting from its current contents — `fit` never resets it)
and never touches `class_feature_counts`.  No input validation is performed.
A raised `IndexError` inside `_compute_likelihoods` is modelled as `none`. -/
def NaiveBayes.fit {T L : Type} [DecidableEq T] [DecidableEq L]
    (nb : NaiveBayes T L) (X : List (List T)) (y : List L) : Option (NaiveBayes T L) :=
  let freq := counter y
  let p := vocabSize X
  (countLoop y X nb.class_counts).map fun cc =>
    ⟨addSmoothing nb.alpha p cc, nb.class_feature_counts, some freq, nb.alpha, some p⟩

/-- `NaiveBayes.posteriors(X)`: the body is `pass`, so the call returns the
Python value `None` whatever the input; downstream code that expects a list of
per-document dictionaries finds nothing to iterate.  Modelled as `none`. -/
def NaiveBayes.posteriors {T L : Type} (_ : NaiveBayes T L) (_ : List (List T)) :
    Option (List (List (L × ℚ))) :=
  none

/-- `max(post.iterkeys(), key=lambda label: post[label])`: the first key of
`post` attaining the maximal value (Python's `max` keeps the earliest maximal
element, replacing the running best only on a strict increase); raises
`ValueError` (`none`) on an empty dictionary. -/
def argmaxAssoc {L : Type} : List (L × ℚ) → Option L
  | [] => none
  | (k, v) :: rest => some (go k v rest)
where
  go (bk : L) (bv : ℚ) : List (L × ℚ) → L
    | [] => bk
    | (k, v) :: rest => if bv < v then go k v rest else go bk bv rest

/-- `NaiveBayes.predict(X)`: iterates over `posteriors(X)` picking each
document's argmax label.  Since `posteriors` returns `None`, the `for` loop
raises `TypeError` (`none`) on every call, fitted or not. -/
def NaiveBayes.predict {T L : Type} (nb : NaiveBayes T L) (X : List (List T)) :
    Option (List L) :=
  (nb.posteriors X).bind fun posts => posts.mapM argmaxAssoc

/-- `NaiveBayes.score(X, y)`: `np.mean(predict(X) == y)`; fails whenever
`predict` fails. -/
def NaiveBayes.score {T L : Type} [DecidableEq L]
    (nb : NaiveBayes T L) (X : List (List T)) (y : List L) : Option ℚ :=
  (nb.predict X).map fun preds =>
    (((preds.zip y).filter fun pr => decide (pr.1 = pr.2)).length : ℚ) / (preds.length : ℚ)

/-! Spec-side quantities for the `fit` invariant, written from the claim's
words: "sum of the token lengths of the documents carrying label c" and "the
number of documents with label c" (documents paired positionally with
labels). -/

def sumLenFor {T L : Type} [DecidableEq L] : List L → List (List T) → L → ℕ
  | [], _, _ => 0
  | _ :: _, [], _ => 0
  | c' :: cs, x :: xs, c => (if c' = c then x.length else 0) + sumLenFor cs xs c

def countLabel {L : Type} [DecidableEq L] : List L → L → ℕ
  | [], _ => 0
  | c' :: cs, c => (if c' = c then 1 else 0) + countLabel cs c

/-! ## `TwoLayerNet` (src/neural_network/neural_net.py)

A NumPy array of shape `(m, n)` is a function `Fin m → Fin n → ℚ`; a vector of
shape `(n,)` is `Fin n → ℚ`.  Training labels `y` are `Fin N → Fin C`
(`0 <= y[i] < C` per the docstring). -/

/-- The four entries of `self.params` set by `__init__`: `W1 : (D, H)`,
`b1 : (H,)`, `W2 : (H, C)`, `b2 : (C,)`.  (`__init__` draws `W1`, `W2` from a
scaled normal distribution and zeroes the biases; the claims quantify over
arbitrary parameter values, so the state is kept abstract.) -/
structure TwoLayerNet (D H C : ℕ) where
  W1 : Fin D → Fin H → ℚ
  b1 : Fin H → ℚ
  W2 : Fin H → Fin C → ℚ
  b2 : Fin C → ℚ

/-- The gradient dictionary `grads` built by `loss`, one entry per parameter. -/
structure Grads (D H C : ℕ) where
  gW1 : Fin D → Fin H → ℚ
  gb1 : Fin H → ℚ
  gW2 : Fin H → Fin C → ℚ
  gb2 : Fin C → ℚ

/-- The dictionary returned by `train`. -/
structure History where
  loss_history : List ℚ
  train_acc_history : List ℚ
  val_acc_history : List ℚ

/-- `h1 = np.maximum(0, X.dot(W1) + b1)`. -/
def TwoLayerNet.h1 {D H C N : ℕ} (net : TwoLayerNet D H C) (X : Fin N → Fin D → ℚ) :
    Fin N → Fin H → ℚ :=
  fun n h => max 0 ((∑ d, X n d * net.W1 d h) + net.b1 h)

/-- `scores = h1.dot(W2) + b2`. -/
def TwoLayerNet.scores {D H C N : ℕ} (net : TwoLayerNet D H C) (X : Fin N → Fin D → ℚ) :
    Fin N → Fin C → ℚ :=
  fun n c => (∑ h, net.h1 X n h * net.W2 h c) + net.b2 c

/-- `TwoLayerNet.loss(X, y=None, reg=0.0)`.  With `y = None` the function
returns the score matrix right after the forward pass.  With `y` supplied the
source computes `exp_scores`, `probabilities`, `data_loss`, `reg_loss` and
`loss` (pure arithmetic, no exception), and then opens the backward pass with
`dscores = probs`; no variable `probs` is bound anywhere in the function (the
probabilities live in `probabilities`), so the interpreter raises `NameError`
and the call never returns a value: that branch is `none`. -/
def TwoLayerNet.loss {D H C N : ℕ} (net : TwoLayerNet D H C) (X : Fin N → Fin D → ℚ)
    (y : Option (Fin N → Fin C)) (reg : ℚ) :
    Option ((Fin N → Fin C → ℚ) ⊕ (ℚ × Grads D H C)) :=
  match y, reg with
  | none, _ => some (Sum.inl (net.scores X))
  | some _, _ => none

/-- The `loss` method as a state transformer on the instance: its body reads
`self.params` and contains no assignment to it, so explicit state passing
returns the instance alongside the result. -/
def TwoLayerNet.lossMethod {D H C N : ℕ} (net : TwoLayerNet D H C) (X : Fin N → Fin D → ℚ)
    (y : Option (Fin N → Fin C)) (reg : ℚ) :
    Option (((Fin N → Fin C → ℚ) ⊕ (ℚ × Grads D H C)) × TwoLayerNet D H C) :=
  (net.loss X y reg).map fun r => (r, net)

/-! `self.params` is a string-keyed dictionary holding exactly the keys
`"W1"`, `"b1"`, `"W2"`, `"b2"` (set in `__init__`, updated only under those
same keys in `train`).  A lookup under any other key raises `KeyError`
(`none`).  The typed views below model lookups expecting a `(D, H)` matrix, an
`(H, C)` matrix and the two bias vectors. -/

def TwoLayerNet.getMatDH {D H C : ℕ} (net : TwoLayerNet D H C) (key : String) :
    Option (Fin D → Fin H → ℚ) :=
  if key = "W1" then some net.W1 else none

def TwoLayerNet.getMatHC {D H C : ℕ} (net : TwoLayerNet D H C) (key : String) :
    Option (Fin H → Fin C → ℚ) :=
  if key = "W2" then some net.W2 else none

def TwoLayerNet.getVecH {D H C : ℕ} (net : TwoLayerNet D H C) (key : String) :
    Option (Fin H → ℚ) :=
  if key = "b1" then some net.b1 else none

def TwoLayerNet.getVecC {D H C : ℕ} (net : TwoLayerNet D H C) (key : String) :
    Option (Fin C → ℚ) :=
  if key = "b2" then some net.b2 else none

/-- `np.argmax(row)`: index of the maximal entry, lowest index on ties (the
running best is replaced only on a strict increase). -/
def argmaxRow {C : ℕ} (v : Fin C → ℚ) : ℕ :=
  match List.finRange C with
  | [] => 0
  | i :: rest => (rest.foldl (fun b j => if v b < v j then j else b) i).val

/-- `TwoLayerNet.predict(X)`: the forward pass is written as
`np.maximum(X.dot(self.params['X1']) + self.params['b1'], 0)`, but `'X1'` is
not a key of `self.params` (the first-layer weights are stored under `'W1'`),
so the lookup raises `KeyError` and the call never returns.  The remaining
lines (`scores`, row-wise argmax) are modelled after the lookup. -/
def TwoLayerNet.predict {D H C N : ℕ} (net : TwoLayerNet D H C) (X : Fin N → Fin D → ℚ) :
    Option (Fin N → ℕ) := do
  let M ← net.getMatDH "X1"
  let b1 ← net.getVecH "b1"
  let W2 ← net.getMatHC "W2"
  let b2 ← net.getVecC "b2"
  let hid : Fin N → Fin H → ℚ := fun n h => max ((∑ d, X n d * M d h) + b1 h) 0
  let sc : Fin N → Fin C → ℚ := fun n c => (∑ h, hid n h * W2 h c) + b2 c
  some fun n => argmaxRow (sc n)

/-- Python float `%` (as in `it % iterations_per_epoch`):
`a % b = a - b * floor(a / b)`. -/
def qmod (a b : ℚ) : ℚ := a - b * (⌊a / b⌋ : ℚ)

/-- `(predictions == labels).mean()`. -/
def meanAcc {B C : ℕ} (pred : Fin B → ℕ) (y : Fin B → Fin C) : ℚ :=
  (((List.finRange B).filter fun b => decide (pred b = (y b).val)).length : ℚ) / (B : ℚ)

/-- The SGD update `self.params[k] += -learning_rate * grads[k]` for all four
parameters. -/
def TwoLayerNet.sgdUpdate {D H C : ℕ} (net : TwoLayerNet D H C) (lr : ℚ) (g : Grads D H C) :
    TwoLayerNet D H C :=
  ⟨fun d h => net.W1 d h + -lr * g.gW1 d h,
   fun h => net.b1 h + -lr * g.gb1 h,
   fun h c => net.W2 h c + -lr * g.gW2 h c,
   fun c => net.b2 c + -lr * g.gb2 c⟩

/-- The body of `for it in xrange(num_iters)` in `train`, recursing on the
number of remaining iterations `k` with `it` the current iteration index.
Each iteration gathers the minibatch `X[sample_indices]` through the sampled
index map `sampler it : Fin B → Fin N` (modelling
`np.random.choice(np.arange(num_train), batch_size)`), calls `loss` with
labels, appends to `loss_history`, applies the SGD update, and on iterations
with `it % iterations_per_epoch == 0` records batch/validation accuracies and
decays the learning rate.  A `none` from `loss` or `predict` aborts the call
(uncaught exception). -/
def TwoLayerNet.trainLoop {D H C N Nv B : ℕ}
    (X : Fin N → Fin D → ℚ) (y : Fin N → Fin C)
    (Xval : Fin Nv → Fin D → ℚ) (yval : Fin Nv → Fin C)
    (decay reg ipe : ℚ) (sampler : ℕ → Fin B → Fin N) :
    ℕ → ℕ → TwoLayerNet D H C → ℚ → History → Option (History × TwoLayerNet D H C)
  | 0, _, net, _, hist => some (hist, net)
  | k + 1, it, net, lr, hist => do
    let Xb : Fin B → Fin D → ℚ := fun b => X (sampler it b)
    let yb : Fin B → Fin C := fun b => y (sampler it b)
    let res ← net.loss Xb (some yb) reg
    match res with
    | Sum.inl _ => none
    | Sum.inr (l, grads) =>
      let net' := net.sgdUpdate lr grads
      let hist' : History := ⟨hist.loss_history ++ [l], hist.train_acc_history,
        hist.val_acc_history⟩
      if qmod (it : ℚ) ipe = 0 then do
        let predTrain ← net'.predict Xb
        let predVal ← net'.predict Xval
        let hist'' : History := ⟨hist'.loss_history,
          hist'.train_acc_history ++ [meanAcc predTrain yb],
          hist'.val_acc_history ++ [meanAcc predVal yval]⟩
        TwoLayerNet.trainLoop X y Xval yval decay reg ipe sampler k (it + 1) net'
          (lr * decay) hist''
      else
        TwoLayerNet.trainLoop X y Xval yval decay reg ipe sampler k (it + 1) net' lr hist'

/-- `TwoLayerNet.train(X, y, X_val, y_val, ...)` with `num_train = N` and
`batch_size = B`: computes
`iterations_per_epoch = max(num_train / batch_size, 1)` (true division;
`ZeroDivisionError` when `batch_size = 0`), then runs the iteration loop
starting from empty histories. -/
def TwoLayerNet.train {D H C N Nv B : ℕ} (net : TwoLayerNet D H C)
    (X : Fin N → Fin D → ℚ) (y : Fin N → Fin C)
    (Xval : Fin Nv → Fin D → ℚ) (yval : Fin Nv → Fin C)
    (lr decay reg : ℚ) (numIters : ℕ) (sampler : ℕ → Fin B → Fin N) :
    Option (History × TwoLayerNet D H C) := do
  let ipe ← if B = 0 then none else some (max ((N : ℚ) / (B : ℚ)) 1)
  TwoLayerNet.trainLoop X y Xval yval decay reg ipe sampler numIters 0 net lr ⟨[], [], []⟩

/-! ## Lemmas about association-list lookup and `bump` -/

theorem alookup_addSmoothing {L : Type} [DecidableEq L] (alpha : ℚ) (p : ℕ)
    (l : List (L × ℚ)) (c : L) :
    alookup (addSmoothing alpha p l) c = (alookup l c).map (· + (p : ℚ) * alpha) := by
  induction l with
  | nil => rfl
  | cons kv rest ih =>
    obtain ⟨k, v⟩ := kv
    by_cases h : c = k
    · simp [addSmoothing, alookup, h]
    · simpa [addSmoothing, alookup, h] using ih

theorem alookup_bump_self {L β : Type} [DecidableEq L] [Add β] (acc : List (L × β)) (c : L)
    (n : β) :
    alookup (bump acc c n) c =
      some (match alookup acc c with | some v => v + n | none => n) := by
  induction acc with
  | nil => simp [bump, alookup]
  | cons kv rest ih =>
    obtain ⟨k, v⟩ := kv
    by_cases h : k = c
    · subst h
      simp [bump, alookup]
    · simp [bump, alookup, h, Ne.symm h, ih]

theorem alookup_bump_other {L β : Type} [DecidableEq L] [Add β] (acc : List (L × β))
    (c c' : L) (n : β) (h : c ≠ c') :
    alookup (bump acc c' n) c = alookup acc c := by
  induction acc with
  | nil => simp [bump, alookup, h]
  | cons kv rest ih =>
    obtain ⟨k, v⟩ := kv
    by_cases hk : k = c'
    · subst hk
      simp [bump, alookup, fun hh : c = k => h hh]
    · by_cases hc : c = k <;> simp [bump, alookup, hk, hc, ih]

/-- Effect on lookups of the first loop of `_compute_likelihoods`: when there
are at least as many documents as labels, the loop completes and the entry for
`c` holds its previous value plus the total length of the documents labelled
`c`. -/
theorem countLoop_alookup {T L : Type} [DecidableEq L] (y : List L) :
    ∀ (X : List (List T)) (acc : List (L × ℚ)) (c : L), y.length ≤ X.length →
    ∃ r, countLoop y X acc = some r ∧
      alookup r c =
        match alookup acc c with
        | some v => some (v + (sumLenFor y X c : ℚ))
        | none => if c ∈ y then some ((sumLenFor y X c : ℚ)) else none := by
  induction y with
  | nil =>
    intro X acc c _
    exact ⟨acc, rfl, by cases h : alookup acc c <;> simp [sumLenFor, h]⟩
  | cons c' cs ih =>
    intro X acc c hlen
    match X with
    | [] => simp at hlen
    | x :: xs =>
      have hlen' : cs.length ≤ xs.length := by simpa using hlen
      obtain ⟨r, hr, hl⟩ := ih xs (bump acc c' (x.length : ℚ)) c hlen'
      refine ⟨r, by simpa [countLoop] using hr, ?_⟩
      rw [hl]
      by_cases hc : c = c'
      · subst hc
        rw [alookup_bump_self]
        cases h : alookup acc c with
        | none => simp [sumLenFor, h]
        | some v => simp [sumLenFor, h]; ring
      · rw [alookup_bump_other _ _ _ _ hc]
        cases h : alookup acc c <;>
          simp [sumLenFor, h, Ne.symm hc, hc, List.mem_cons]

/-- Effect on lookups of `Counter(y)`: the entry for `c` is the number of
occurrences of `c` in `y`. -/
theorem counter_alookup {L : Type} [DecidableEq L] (y : List L) :
    ∀ (acc : List (L × ℕ)) (c : L),
    alookup (y.foldl (fun a c' => bump a c' 1) acc) c =
      match alookup acc c with
      | some v => some (v + countLabel y c)
      | none => if c ∈ y then some (countLabel y c) else none := by
  induction y with
  | nil =>
    intro acc c
    cases h : alookup acc c <;> simp [countLabel, h]
  | cons c' cs ih =>
    intro acc c
    rw [List.foldl_cons, ih]
    by_cases hc : c = c'
    · subst hc
      rw [alookup_bump_self]
      cases h : alookup acc c with
      | none => simp [countLabel, h]
      | some v => simp [countLabel, h]; ring
    · rw [alookup_bump_other _ _ _ _ hc]
      cases h : alookup acc c <;>
        simp [countLabel, h, Ne.symm hc, hc, List.mem_cons]

/-- `fit` copies `class_feature_counts` through unchanged: no code path ever
writes to it. -/
theorem fit_feature_counts {T L : Type} [DecidableEq T] [DecidableEq L]
    (nb : NaiveBayes T L) (docs : List (List T)) (labels : List L) :
    ((nb.fit docs labels).map fun st => st.class_feature_counts) =
      ((nb.fit docs labels).map fun _ => nb.class_feature_counts) := by
  simp only [NaiveBayes.fit]
  cases countLoop labels docs nb.class_counts <;> rfl

/-! ## Claim theorems -/

/-- Claim C5: for every `TwoLayerNet` with parameters `W1, b1, W2, b2` and
every input `X` of shape `(N, D)`, calling the `loss` method without target
labels (`y = None`) returns exactly the score matrix
`max(0, X·W1 + b1)·W2 + b2` of shape `(N, numClasses)` — encoded by the result
type `Fin N → Fin numClasses → ℚ` — and nothing else (the `Sum.inl` branch
carrying a bare score matrix). -/
theorem loss_none_returns_scores {D H C N : ℕ} (net : TwoLayerNet D H C)
    (X : Fin N → Fin D → ℚ) (reg : ℚ) :
    net.loss X none reg =
      some (Sum.inl fun n c =>
        (∑ h, max 0 ((∑ d, X n d * net.W1 d h) + net.b1 h) * net.W2 h c) + net.b2 c) :=
  rfl

/-- Claim C10: the score-only call of the `loss` method (`y = None`) leaves
all four parameters unchanged — the method as a state transformer returns the
very instance it was called on. -/
theorem loss_none_preserves_params {D H C N : ℕ} (net : TwoLayerNet D H C)
    (X : Fin N → Fin D → ℚ) (reg : ℚ) :
    net.lossMethod X none reg = some (Sum.inl (net.scores X), net) :=
  rfl

/-- Claim C8: `train` with `num_iters = 0` (and a positive batch size, lest
`num_train / batch_size` raise `ZeroDivisionError` before the loop) returns a
history whose three lists are all empty and leaves the parameters exactly
unchanged. -/
theorem train_zero_iters {D H C N Nv B : ℕ} (net : TwoLayerNet D H C)
    (X : Fin N → Fin D → ℚ) (y : Fin N → Fin C)
    (Xval : Fin Nv → Fin D → ℚ) (yval : Fin Nv → Fin C)
    (lr decay reg : ℚ) (sampler : ℕ → Fin B → Fin N) (hB : 0 < B) :
    net.train X y Xval yval lr decay reg 0 sampler = some (⟨[], [], []⟩, net) := by
  simp [TwoLayerNet.train, TwoLayerNet.trainLoop, hB.ne']

/-- Witness for `train_zero_iters` at a concrete one-dimensional network. -/
theorem train_zero_iters_witness :
    0 < 1 ∧
    @TwoLayerNet.train 1 1 1 1 1 1 ⟨fun _ _ => 1, fun _ => 0, fun _ _ => 1, fun _ => 0⟩
      (fun _ _ => 0) (fun _ => 0) (fun _ _ => 0) (fun _ => 0) 1 1 0 0 (fun _ _ => 0) =
      some (⟨[], [], []⟩, ⟨fun _ _ => 1, fun _ => 0, fun _ _ => 1, fun _ => 0⟩) :=
  ⟨by decide, train_zero_iters _ _ _ _ _ _ _ _ _ (by decide)⟩

/-- Claim C1 (failing input): calling the `loss` method with labels supplied
never returns a `(loss, grads)` pair — the backward pass opens with
`dscores = probs`, a name bound nowhere in the function, raising `NameError`.
Evaluated here at the 1×1×1 network with unit weights, `X = [[1]]`, `y = [0]`,
`reg = 0`. -/
theorem loss_with_labels_raises :
    @TwoLayerNet.loss 1 1 1 1 ⟨fun _ _ => 1, fun _ => 0, fun _ _ => 1, fun _ => 0⟩
      (fun _ _ => 1) (some fun _ => 0) 0 = none :=
  rfl

/-- Claim C3 (failing input): `predict` never returns — its forward pass looks
up `self.params['X1']`, a key that does not exist (the first-layer weights are
stored under `'W1'`), raising `KeyError`.  Evaluated at the 1×1×1 network with
unit weights and `X = [[1]]`. -/
theorem predict_raises_keyerror :
    @TwoLayerNet.predict 1 1 1 1 ⟨fun _ _ => 1, fun _ => 0, fun _ _ => 1, fun _ => 0⟩
      (fun _ _ => 1) = none :=
  rfl

/-- Claim C7 (failing input): `train` with `num_iters = 1` (any positive
count) aborts in its first iteration — the call `self.loss(X_batch,
y=y_batch, reg=reg)` raises `NameError` on the unbound `probs` — so no
parameter update, history entry or epoch bookkeeping ever happens.  Evaluated
at the 1×1×1 network, one training and one validation example, batch size 1. -/
theorem train_raises_nameerror :
    @TwoLayerNet.train 1 1 1 1 1 1 ⟨fun _ _ => 1, fun _ => 0, fun _ _ => 1, fun _ => 0⟩
      (fun _ _ => 0) (fun _ => 0) (fun _ _ => 0) (fun _ => 0) 1 1 0 1 (fun _ _ => 0) =
      none :=
  rfl

/-- Claim C2 (failing input): even after a successful `fit` (here on the single
document `["a"]` labelled `0`), `predict` returns no prediction at all —
`posteriors` is unimplemented (`pass` returns `None`) and iterating over
`None` raises `TypeError` — rather than the argmax-log-posterior label the
claim describes. -/
theorem nb_predict_raises :
    (((@NaiveBayes.init String ℕ 1).fit [["a"]] [0]).map fun nb =>
      nb.predict [["a"]]) = some none :=
  rfl

/-- Claim C4 (failing inputs): `fit` performs no input validation — it
succeeds on two documents with a single label (silently ignoring the second
document) and succeeds on an empty document list — and `predict`/`score`
before `fit` fail not with a dedicated invalid-state error but with the same
generic `TypeError` (`none`) they produce after `fit`. -/
theorem nb_fit_skips_validation :
    ((@NaiveBayes.init String ℕ 1).fit [["a"], ["b"]] [0]).isSome = true ∧
    ((@NaiveBayes.init String ℕ 1).fit [] []).isSome = true ∧
    (@NaiveBayes.init String ℕ 1).predict [["a"]] = none ∧
    (@NaiveBayes.init String ℕ 1).score [["a"]] [0] = none :=
  ⟨rfl, rfl, rfl, rfl⟩

/-- Claim C9: `_compute_likelihoods` tallies only the total document length
per label: a `fit` from a fresh instance leaves `class_feature_counts` with no
entries for any label, any further `fit` preserves that field verbatim, and
`posteriors` returns no value for every input. -/
theorem nb_likelihoods_untallied {T L : Type} [DecidableEq T] [DecidableEq L]
    (nb : NaiveBayes T L) (alpha : ℚ) (docs docs2 : List (List T))
    (labels labels2 : List L) :
    (((@NaiveBayes.init T L alpha).fit docs labels).map fun st =>
        st.class_feature_counts) =
      (((@NaiveBayes.init T L alpha).fit docs labels).map fun _ =>
        ([] : List (L × List (T × ℕ)))) ∧
    ((nb.fit docs2 labels2).map fun st => st.class_feature_counts) =
      ((nb.fit docs2 labels2).map fun _ => nb.class_feature_counts) ∧
    ∀ X, nb.posteriors X = none := by
  exact ⟨fit_feature_counts _ _ _, fit_feature_counts _ _ _, fun X => rfl⟩

/-- Claim C6: after a single `fit(documents, labels)` on a fresh instance
(with as many labels as documents), for every label `c` occurring in `labels`:
the stored per-label total count equals the summed token lengths of the
documents carrying `c` plus `vocabularySize * alpha`, the stored class prior
count for `c` equals the number of documents labelled `c`, and the stored
vocabulary size equals the number of distinct tokens across all documents. -/
theorem nb_fit_invariant {T L : Type} [DecidableEq T] [DecidableEq L] (alpha : ℚ)
    (docs : List (List T)) (labels : List L) (c : L)
    (hlen : labels.length = docs.length) (hc : c ∈ labels) :
    (((@NaiveBayes.init T L alpha).fit docs labels).map fun nb =>
        (alookup nb.class_counts c, nb.class_freq.bind fun f => alookup f c, nb.p)) =
      some (some ((sumLenFor labels docs c : ℚ) + (vocabSize docs : ℚ) * alpha),
        some (countLabel labels c), some (vocabSize docs)) := by
  obtain ⟨r, hr, hl⟩ := countLoop_alookup labels docs [] c (le_of_eq hlen)
  have hcc : alookup r c = some ((sumLenFor labels docs c : ℚ)) := by
    rw [hl]; simp [alookup, hc]
  have hfreq : alookup (counter labels) c = some (countLabel labels c) := by
    rw [counter, counter_alookup]; simp [alookup, hc]
  simp [NaiveBayes.fit, NaiveBayes.init, hr, alookup_addSmoothing, hcc, hfreq]

/-- Witness for `nb_fit_invariant` on three documents over the vocabulary
`{5, 6, 7}` with labels `[0, 1, 0]`, for label `0`. -/
theorem nb_fit_invariant_witness :
    ([0, 1, 0] : List ℕ).length = ([[5, 6], [7], [5]] : List (List ℕ)).length ∧
    0 ∈ [0, 1, 0] ∧
    (((@NaiveBayes.init ℕ ℕ 1).fit [[5, 6], [7], [5]] [0, 1, 0]).map fun nb =>
        (alookup nb.class_counts 0, nb.class_freq.bind fun f => alookup f 0, nb.p)) =
      some (some ((sumLenFor [0, 1, 0] [[5, 6], [7], [5]] 0 : ℚ) +
          (vocabSize [[5, 6], [7], [5]] : ℚ) * 1),
        some (countLabel [0, 1, 0] 0), some (vocabSize [[5, 6], [7], [5]])) :=
  ⟨rfl, by decide, nb_fit_invariant 1 [[5, 6], [7], [5]] [0, 1, 0] 0 rfl (by decide)⟩

end Spec2Proof
